import Mathlib

/-
  Verification of the per-connection protocol engine of the nostr-rs-relay
  server (src/server.rs): the message codec `convert_to_msg` and the
  `nostr_server` event loop, embedded shallowly.  The loop's six select
  sources become a `LoopEvent`; socket writes, metric increments, query
  submissions and cancel firings become an explicit `Effect` list; the
  mutable locals (`conn`, `running_queries`, `last_message_time`, counters)
  become a `ConnState` record threaded through a `step` function.

  Modules of the repository that server.rs calls but whose sources are not
  part of this tree (conn.rs, event.rs, subscription.rs, notice.rs,
  close.rs) are modelled from the specification; each such definition says
  so in its doc comment.
-/

namespace NostrRelay

/-- An event, opaque to the core: a validated record with a stable
byte-serialization (spec section 3).  Only the fields the engine touches
are modelled. -/
structure Event where
  id : String
  kind : Nat
  created_at : Nat
  serialized : String

/-- Modelled from the spec: `Event.is_valid_timestamp` lives in the Event
module (event.rs, not in this tree).  Per the spec, the check is
"created_at sanity against reject_future_seconds"; when the setting is
absent the check passes, and when present the event may not be more than
`fut` seconds in the future of the current clock `now`. -/
def Event.is_valid_timestamp (e : Event) (now : Nat) (reject_future_seconds : Option Nat) : Bool :=
  match reject_future_seconds with
  | none => true
  | some fut => decide (e.created_at ≤ now + fut)

/-- Modelled from the spec: a subscription (subscription.rs, not in this
tree) is a client-chosen identifier plus filters; the core only calls
`interested_in_event` and `needs_historical_events`, so those are carried
as opaque results. -/
structure Subscription where
  id : String
  needs_historical : Bool
  interested : Event → Bool

/-- Method wrapper matching the source call `s.needs_historical_events()`. -/
def Subscription.needs_historical_events (s : Subscription) : Bool :=
  s.needs_historical

/-- Method wrapper matching the source call `sub.interested_in_event(&e)`. -/
def Subscription.interested_in_event (s : Subscription) (e : Event) : Bool :=
  s.interested e

/-- Modelled from the spec: an `EventCmd` (event.rs, not in this tree) is a
raw EVENT body carrying its claimed id; converting it to an `Event`
performs signature/id validation and may fail with a displayable error. -/
structure EventCmd where
  evid : String
  validated : Except String Event

/-- Method wrapper matching the source call `ec.event_id()`. -/
def EventCmd.event_id (ec : EventCmd) : String :=
  ec.evid

/-- Modelled from the spec: a parsed CLOSE command (close.rs, not in this
tree) carries just the subscription id. -/
structure Close where
  id : String

/-- Modelled from the spec: a raw CLOSE command whose conversion to `Close`
may fail (`Result::<Close>::from(cc)` in the source). -/
structure CloseCmd where
  parsed : Option Close

/-- Nostr protocol messages from a client (server.rs, `NostrMessage`). -/
inductive NostrMessage where
  | EventMsg (ec : EventCmd)
  | SubMsg (s : Subscription)
  | CloseMsg (cc : CloseCmd)

/-- The error variants of `crate::error::Error` that server.rs constructs
or matches on. -/
inductive Error where
  | ProtoParseError
  | EventMaxLengthError (n : Nat)
  | ConnError
  | OtherError

/-- A text frame as the codec sees it: its raw byte length, and the outcome
of the external `serde_json::from_str` parse (`none` models a parse
failure). -/
structure WireText where
  len : Nat
  parsed : Option NostrMessage

/-- Embedding of `convert_to_msg` (server.rs lines 518-543): parse the
frame; if it parsed as an EVENT message and a positive `max_event_bytes`
is configured and the raw length exceeds it, fail with
`EventMaxLengthError(len)`; parse failures become `ProtoParseError`. -/
def convert_to_msg (msg : WireText) (max_bytes : Option Nat) : Except Error NostrMessage :=
  match msg.parsed with
  | some m =>
      match m with
      | NostrMessage.EventMsg _ =>
          match max_bytes with
          | some max_size =>
              if msg.len > max_size ∧ max_size > 0 then
                Except.error (Error.EventMaxLengthError msg.len)
              else
                Except.ok m
          | none => Except.ok m
      | _ => Except.ok m
  | none => Except.error Error.ProtoParseError

/-- Modelled from the spec: a Notice (notice.rs, not in this tree) is
either a bare message or a per-event result with an ok flag. -/
inductive Notice where
  | Message (msg : String)
  | EventResult (id : String) (ok : Bool) (msg : String)

/-- Modelled from the spec: `Notice::message` wraps a plain text notice. -/
def Notice.message (msg : String) : Notice :=
  Notice.Message msg

/-- Modelled from the spec: `Notice::invalid(id, msg)` is the invalid-event
result, serialized as OK with flag false (spec sections 3 and 7). -/
def Notice.invalid (id : String) (msg : String) : Notice :=
  Notice.EventResult id false msg

/-- Outbound frames written to the websocket, structured by shape: the
source builds them with `json!` or `format!`. -/
inductive OutFrame where
  | notice (msg : String)
  | okResult (id : String) (ok : Bool) (msg : String)
  | eose (subId : String)
  | eventFrame (subId : String) (payload : String)
  | ping

/-- Embedding of `make_notice_message` (server.rs lines 546-553). -/
def make_notice_message (n : Notice) : OutFrame :=
  match n with
  | Notice.Message msg => OutFrame.notice msg
  | Notice.EventResult id ok msg => OutFrame.okResult id ok msg

/-- The metric counters the event loop increments. -/
inductive MetricName where
  | connections
  | cmd_req
  | cmd_event
  | cmd_close
  | disconnects (reason : String)
  | sent_events (source : String)

/-- Observable actions of one pass through the event loop. -/
inductive Effect where
  | send (f : OutFrame)
  | inc (m : MetricName)
  | awaitRateLimiter
  | enqueueEvent (e : Event) (source_ip : String)
  | startQuery (sub : Subscription) (qid : Nat)
  | fireCancel (qid : Nat)
  | logSummary (sent : Nat) (recv : Nat) (duration : Nat)

/-- The reasons the event loop breaks, matching the four
`disconnects{reason}` labels. -/
inductive ExitReason where
  | shutdown
  | timeout
  | normal
  | ioError
deriving DecidableEq

/-- The label used for the `disconnects` counter at each exit. -/
def ExitReason.label : ExitReason → String
  | ExitReason.shutdown => "shutdown"
  | ExitReason.timeout => "timeout"
  | ExitReason.normal => "normal"
  | ExitReason.ioError => "error"

/-- Association-list lookup keyed by strings, modelling `HashMap::get`. -/
def lookupA {α : Type} : List (String × α) → String → Option α
  | [], _ => none
  | p :: rest, k => if p.1 = k then some p.2 else lookupA rest k

/-- Association-list insert returning the new table, modelling
`HashMap::insert` (the old value, if any, is read with `lookupA`). -/
def insertA {α : Type} : List (String × α) → String → α → List (String × α)
  | [], k, v => [(k, v)]
  | p :: rest, k, v => if p.1 = k then (k, v) :: rest else p :: insertA rest k v

/-- Association-list removal, modelling `HashMap::remove`. -/
def removeA {α : Type} : List (String × α) → String → List (String × α)
  | [], _ => []
  | p :: rest, k => if p.1 = k then removeA rest k else p :: removeA rest k

/-- Modelled from the spec: per-connection client state (conn.rs, not in
this tree): the client ip, the subscription table keyed by subscription
id, and the configured subscription cap. -/
structure ClientConn where
  ip : String
  subscriptions : List (String × Subscription)
  max_subs : Nat

/-- Modelled from the spec: `has_subscription` asks whether the REQ's
subscription id is already present in the connection's table ("within one
connection, subscription identifiers are unique; a second REQ with an
existing id is ignored as a duplicate"). -/
def ClientConn.has_subscription (c : ClientConn) (s : Subscription) : Bool :=
  (lookupA c.subscriptions s.id).isSome

/-- Modelled from the spec: `subscribe` registers the subscription under
its id, failing with a protocol notice when the per-connection cap is
already reached ("total active subscriptions per connection ≤ configured
limit; attempts beyond the limit fail with a protocol notice"). -/
def ClientConn.subscribe (c : ClientConn) (s : Subscription) : Except String ClientConn :=
  if c.subscriptions.length ≥ c.max_subs then
    Except.error "subscription count exceeds maximum"
  else
    Except.ok { c with subscriptions := insertA c.subscriptions s.id s }

/-- Modelled from the spec: `unsubscribe` drops the id named by a CLOSE
from the subscription table. -/
def ClientConn.unsubscribe (c : ClientConn) (cl : Close) : ClientConn :=
  { c with subscriptions := removeA c.subscriptions cl.id }

/-- The mutable locals of `nostr_server`, gathered into a record: the
client state, the running-queries table (cancel senders named by numeric
ids), a counter supplying fresh cancel ids, the last-activity clock and
the connection start time, and the published/received event counters. -/
structure ConnState where
  conn : ClientConn
  running_queries : List (String × Nat)
  next_qid : Nat
  last_message_time : Nat
  orig_start : Nat
  client_published_event_count : Nat
  client_received_event_count : Nat

/-- The settings fields `nostr_server` reads. -/
structure Settings where
  max_event_bytes : Option Nat
  reject_future_seconds : Option Nat
  subscriptions_per_min : Option Nat

/-- Whether `sub_lim_opt` is `Some` (server.rs lines 584-592): a configured
`subscriptions_per_min` that is strictly positive. -/
def sub_lim_active (settings : Settings) : Bool :=
  match settings.subscriptions_per_min with
  | some n => decide (0 < n)
  | none => false

/-- `max_quiet_time` (server.rs line 610): disconnect after 20 minutes of
silence, in seconds. -/
def max_quiet_time : Nat := 60 * 20

/-- Sub-id escaping as the source performs it on every echoed id:
`sub_id.replace(char 34, "")`, removing every embedded double quote. -/
def subEsc (s : String) : String :=
  String.mk (s.data.filter (fun c => c ≠ '\"'))

/-- The outcome of one pass through the loop body: the updated locals, the
emitted effects in order, and whether (and why) the loop breaks. -/
structure StepResult where
  state : ConnState
  effects : List Effect
  halt : Option ExitReason

/-- A QueryResult from the database reader: the subscription id and either
a serialized event body or the literal sentinel EOSE. -/
structure QueryResult where
  sub_id : String
  event : String

/-- One inbound websocket read, modelling
`Option (Result Message WsError)` as matched by the source. -/
inductive WsMessage where
  | text (m : WireText)
  | binary
  | pingMsg
  | pong
  | closeFrame

/-- The cases of `ws_stream.next()` the source distinguishes. -/
inductive WsNext where
  | msg (m : WsMessage)
  | capacityErr (size : Nat) (max_size : Nat)
  | alreadyClosed
  | connectionClosed
  | resetNoClose
  | ioErr
  | otherErr
  | streamEnd

/-- The six select sources of the event loop (server.rs lines 636-846). -/
inductive LoopEvent where
  | shutdownSignal
  | pingTick
  | noticeMsg (n : Notice)
  | queryResult (qr : QueryResult)
  | broadcastEvent (e : Event)
  | wsNext (w : WsNext)

/-- The broadcast-bus arm (server.rs lines 673-694): for each registered
subscription interested in the event, count a realtime send and emit an
EVENT frame under the escaped sub id with the event's serialization. -/
def broadcastEffects : List (String × Subscription) → Event → List Effect
  | [], _ => []
  | (s, sub) :: rest, e =>
      if sub.interested_in_event e then
        Effect.inc (MetricName.sent_events "realtime") ::
          Effect.send (OutFrame.eventFrame (subEsc s) e.serialized) ::
            broadcastEffects rest e
      else
        broadcastEffects rest e

/-- Embedding of the `nostr_msg` dispatch (server.rs lines 744-844). -/
def handle_nostr_msg (settings : Settings) (st : ConnState) (now : Nat)
    (nostr_msg : Except Error NostrMessage) : StepResult :=
  match nostr_msg with
  | Except.ok (NostrMessage.EventMsg ec) =>
      let evid := ec.event_id
      match ec.validated with
      | Except.ok e =>
          if e.is_valid_timestamp now settings.reject_future_seconds then
            { state := { st with
                client_published_event_count := st.client_published_event_count + 1 },
              effects := [Effect.inc MetricName.cmd_event,
                Effect.enqueueEvent e st.conn.ip],
              halt := none }
          else
            match settings.reject_future_seconds with
            | some fut_sec =>
                { state := st,
                  effects := [Effect.inc MetricName.cmd_event,
                    Effect.send (make_notice_message (Notice.invalid e.id
                      ("The event created_at field is out of the acceptable range (+"
                        ++ toString fut_sec ++ "sec) for this relay.")))],
                  halt := none }
            | none =>
                { state := st,
                  effects := [Effect.inc MetricName.cmd_event],
                  halt := none }
      | Except.error emsg =>
          { state := st,
            effects := [Effect.inc MetricName.cmd_event,
              Effect.send (make_notice_message (Notice.invalid evid emsg))],
            halt := none }
  | Except.ok (NostrMessage.SubMsg s) =>
      if st.conn.has_subscription s then
        { state := st, effects := [], halt := none }
      else
        let limEff := if sub_lim_active settings then [Effect.awaitRateLimiter] else []
        let qid := st.next_qid
        match st.conn.subscribe s with
        | Except.ok conn2 =>
            let prev := lookupA st.running_queries s.id
            let cancelEffs := match prev with
              | some p => [Effect.fireCancel p]
              | none => []
            let queryEffs := if s.needs_historical_events then
                [Effect.startQuery s qid]
              else []
            { state := { st with
                conn := conn2,
                running_queries := insertA st.running_queries s.id qid,
                next_qid := qid + 1 },
              effects := Effect.inc MetricName.cmd_req :: limEff ++ cancelEffs ++ queryEffs,
              halt := none }
        | Except.error e =>
            { state := { st with next_qid := qid + 1 },
              effects := Effect.inc MetricName.cmd_req :: limEff ++
                [Effect.send (make_notice_message (Notice.message
                  ("Subscription error: " ++ e)))],
              halt := none }
  | Except.ok (NostrMessage.CloseMsg cc) =>
      match cc.parsed with
      | some c =>
          let stop_tx := lookupA st.running_queries c.id
          let cancelEffs := match stop_tx with
            | some qid => [Effect.fireCancel qid]
            | none => []
          { state := { st with
              conn := st.conn.unsubscribe c,
              running_queries := removeA st.running_queries c.id },
            effects := Effect.inc MetricName.cmd_close :: cancelEffs,
            halt := none }
      | none =>
          { state := st,
            effects := [Effect.send (make_notice_message
              (Notice.message "could not parse command"))],
            halt := none }
  | Except.error Error.ConnError =>
      { state := st, effects := [], halt := some ExitReason.normal }
  | Except.error (Error.EventMaxLengthError _) =>
      { state := st,
        effects := [Effect.send (make_notice_message
          (Notice.message "event exceeded max size"))],
        halt := none }
  | Except.error Error.ProtoParseError =>
      { state := st,
        effects := [Effect.send (make_notice_message
          (Notice.message "could not parse command"))],
        halt := none }
  | Except.error Error.OtherError =>
      { state := st, effects := [], halt := none }

/-- The break taken on a client Close frame, stream end, AlreadyClosed,
ConnectionClosed or an unclean reset (server.rs lines 718-726). -/
def closedNormally (st : ConnState) : StepResult :=
  { state := st,
    effects := [Effect.inc (MetricName.disconnects "normal")],
    halt := some ExitReason.normal }

/-- One pass through the `tokio::select!` body of the event loop
(server.rs lines 636-846), at clock `now`. -/
def step (settings : Settings) (st : ConnState) (now : Nat) (ev : LoopEvent) : StepResult :=
  match ev with
  | LoopEvent.shutdownSignal =>
      { state := st,
        effects := [Effect.inc (MetricName.disconnects "shutdown")],
        halt := some ExitReason.shutdown }
  | LoopEvent.pingTick =>
      if now - st.last_message_time > max_quiet_time then
        { state := st,
          effects := [Effect.inc (MetricName.disconnects "timeout")],
          halt := some ExitReason.timeout }
      else
        { state := st, effects := [Effect.send OutFrame.ping], halt := none }
  | LoopEvent.noticeMsg n =>
      { state := st, effects := [Effect.send (make_notice_message n)], halt := none }
  | LoopEvent.queryResult qr =>
      let subesc := subEsc qr.sub_id
      if qr.event = "EOSE" then
        { state := st, effects := [Effect.send (OutFrame.eose subesc)], halt := none }
      else
        { state := { st with
            client_received_event_count := st.client_received_event_count + 1 },
          effects := [Effect.inc (MetricName.sent_events "db"),
            Effect.send (OutFrame.eventFrame subesc qr.event)],
          halt := none }
  | LoopEvent.broadcastEvent e =>
      { state := st, effects := broadcastEffects st.conn.subscriptions e, halt := none }
  | LoopEvent.wsNext w =>
      let st2 := { st with last_message_time := now }
      match w with
      | WsNext.msg (WsMessage.text m) =>
          handle_nostr_msg settings st2 now (convert_to_msg m settings.max_event_bytes)
      | WsNext.msg WsMessage.binary =>
          { state := st2,
            effects := [Effect.send (make_notice_message
              (Notice.message "binary messages are not accepted"))],
            halt := none }
      | WsNext.msg WsMessage.pingMsg => { state := st2, effects := [], halt := none }
      | WsNext.msg WsMessage.pong => { state := st2, effects := [], halt := none }
      | WsNext.msg WsMessage.closeFrame => closedNormally st2
      | WsNext.capacityErr size max_size =>
          { state := st2,
            effects := [Effect.send (make_notice_message (Notice.message
              ("message too large (" ++ toString size ++ " > " ++ toString max_size ++ ")")))],
            halt := none }
      | WsNext.streamEnd => closedNormally st2
      | WsNext.alreadyClosed => closedNormally st2
      | WsNext.connectionClosed => closedNormally st2
      | WsNext.resetNoClose => closedNormally st2
      | WsNext.ioErr =>
          { state := st2,
            effects := [Effect.inc (MetricName.disconnects "error")],
            halt := some ExitReason.ioError }
      | WsNext.otherErr =>
          { state := st2,
            effects := [Effect.inc (MetricName.disconnects "error")],
            halt := some ExitReason.ioError }

/-- The post-loop cleanup (server.rs lines 848-859): fire the cancel sender
of every query still running, then log the summary with the
published/received counts and the connection duration. -/
def cleanup (st : ConnState) (now : Nat) : List Effect :=
  (st.running_queries.map (fun p => Effect.fireCancel p.2)) ++
    [Effect.logSummary st.client_published_event_count
      st.client_received_event_count (now - st.orig_start)]

/-- Run the loop body over a schedule of timestamped select outcomes,
stopping at the first break; yields the effects in order, the exit reason
if the loop broke, and the final locals. -/
def runLoop (settings : Settings) (st : ConnState) :
    List (Nat × LoopEvent) → List Effect × Option ExitReason × ConnState
  | [] => ([], none, st)
  | (now, ev) :: rest =>
      let r := step settings st now ev
      match r.halt with
      | some reason => (r.effects, some reason, r.state)
      | none =>
          let rec2 := runLoop settings r.state rest
          (r.effects ++ rec2.1, rec2.2.1, rec2.2.2)

/-- A full connection run: the loop followed, when it broke, by the
cleanup at clock `endTime`. -/
def runConn (settings : Settings) (st : ConnState) (evs : List (Nat × LoopEvent))
    (endTime : Nat) : List Effect × Option ExitReason × ConnState :=
  let r := runLoop settings st evs
  match r.2.1 with
  | some reason => (r.1 ++ cleanup r.2.2 endTime, some reason, r.2.2)
  | none => r

/-- The reasons of the `disconnects{reason}` increments among a list of
effects, in order. -/
def disconnectLabels (effs : List Effect) : List String :=
  effs.filterMap (fun e => match e with
    | Effect.inc (MetricName.disconnects r) => some r
    | _ => none)

/-- A concrete event used to instantiate theorems on closed inputs. -/
def sampleEvent : Event :=
  { id := "evid1", kind := 1, created_at := 1000, serialized := "serialized-event" }

/-- A concrete subscription used to instantiate theorems on closed inputs. -/
def sampleSub : Subscription :=
  { id := "subid", needs_historical := true, interested := fun _ => true }

/-- A concrete raw EVENT command that validates to `sampleEvent`. -/
def sampleCmd : EventCmd :=
  { evid := "evid1", validated := Except.ok sampleEvent }

/-- A concrete connection state with one subscription registered under id
"a" and one running query for it, used to instantiate theorems. -/
def sampleState : ConnState :=
  { conn := { ip := "127.0.0.1", subscriptions := [("a", sampleSub)], max_subs := 16 },
    running_queries := [("a", 7)],
    next_qid := 8,
    last_message_time := 0,
    orig_start := 0,
    client_published_event_count := 2,
    client_received_event_count := 3 }

/-- Concrete settings: 50-byte event cap, 30-second future window,
10 subscriptions per minute. -/
def sampleSettings : Settings :=
  { max_event_bytes := some 50, reject_future_seconds := some 30,
    subscriptions_per_min := some 10 }

/-- C10: the codec applies the `max_event_bytes` length check only to
frames that parsed as EVENT messages: a frame of any length that fails to
parse yields `ProtoParseError` (never `EventMaxLengthError`), and frames
parsed as REQ or CLOSE are returned whole, never rejected for length. -/
theorem convert_length_check_event_only (mt : WireText) (mb : Option Nat) :
    (mt.parsed = none → convert_to_msg mt mb = Except.error Error.ProtoParseError) ∧
    (∀ s, mt.parsed = some (NostrMessage.SubMsg s) →
      convert_to_msg mt mb = Except.ok (NostrMessage.SubMsg s)) ∧
    (∀ cc, mt.parsed = some (NostrMessage.CloseMsg cc) →
      convert_to_msg mt mb = Except.ok (NostrMessage.CloseMsg cc)) := by
  refine ⟨?_, ?_, ?_⟩
  · intro h
    simp [convert_to_msg, h]
  · intro s h
    simp [convert_to_msg, h]
  · intro cc h
    simp [convert_to_msg, h]

/-- Closed instance of the C10 theorem: an unparsable 5-byte frame yields
the parse error, and oversized REQ and CLOSE frames pass the codec. -/
theorem convert_length_check_event_only_witness :
    convert_to_msg ⟨5, none⟩ (some 3) = Except.error Error.ProtoParseError ∧
    convert_to_msg ⟨999, some (NostrMessage.SubMsg sampleSub)⟩ (some 3) =
      Except.ok (NostrMessage.SubMsg sampleSub) ∧
    convert_to_msg ⟨999, some (NostrMessage.CloseMsg ⟨some ⟨"x"⟩⟩)⟩ (some 3) =
      Except.ok (NostrMessage.CloseMsg ⟨some ⟨"x"⟩⟩) :=
  ⟨(convert_length_check_event_only ⟨5, none⟩ (some 3)).1 rfl,
   (convert_length_check_event_only ⟨999, some (NostrMessage.SubMsg sampleSub)⟩ (some 3)).2.1
     sampleSub rfl,
   (convert_length_check_event_only ⟨999, some (NostrMessage.CloseMsg ⟨some ⟨"x"⟩⟩)⟩ (some 3)).2.2
     ⟨some ⟨"x"⟩⟩ rfl⟩

/-- C4: the codec returns `EventMaxLengthError n` exactly when the frame
parsed as an EVENT message, `max_event_bytes` is configured strictly
positive, and the raw frame length `n` exceeds that limit; the engine
answers such a frame with the notice "event exceeded max size" and does
not break the loop. -/
theorem event_max_length_rejection (mt : WireText) (mb : Option Nat) :
    (∀ n, convert_to_msg mt mb = Except.error (Error.EventMaxLengthError n) ↔
      (n = mt.len ∧ (∃ ec, mt.parsed = some (NostrMessage.EventMsg ec)) ∧
        ∃ m, mb = some m ∧ 0 < m ∧ m < mt.len)) ∧
    (∀ settings st now, settings.max_event_bytes = mb →
      convert_to_msg mt mb = Except.error (Error.EventMaxLengthError mt.len) →
      (step settings st now (LoopEvent.wsNext (WsNext.msg (WsMessage.text mt)))).effects =
        [Effect.send (OutFrame.notice "event exceeded max size")] ∧
      (step settings st now (LoopEvent.wsNext (WsNext.msg (WsMessage.text mt)))).halt = none) := by
  constructor
  · intro n
    obtain ⟨len, p⟩ := mt
    cases p with
    | none => simp [convert_to_msg]
    | some m =>
        cases m with
        | EventMsg ec =>
            cases mb with
            | none => simp [convert_to_msg]
            | some max_size =>
                simp only [convert_to_msg]
                split
                case isTrue hc =>
                  simp only [Except.error.injEq, Error.EventMaxLengthError.injEq]
                  constructor
                  · intro hn
                    exact ⟨hn.symm, ⟨ec, rfl⟩, max_size, rfl, hc.2, hc.1⟩
                  · rintro ⟨hn, -, -⟩
                    exact hn.symm
                case isFalse hc =>
                  simp only [reduceCtorEq, false_iff]
                  rintro ⟨hn, -, m2, hm2, hpos, hlt⟩
                  rw [Option.some.injEq] at hm2
                  subst hm2
                  exact hc ⟨hlt, hpos⟩
        | SubMsg s => simp [convert_to_msg]
        | CloseMsg cc => simp [convert_to_msg]
  · intro settings st now hmb hc
    subst hmb
    constructor
    · simp only [step]
      rw [hc]
      rfl
    · simp only [step]
      rw [hc]
      rfl

/-- Closed instance of the C4 theorem: a 100-byte frame parsing as an
EVENT against a 50-byte cap is rejected by the codec, and the engine
replies with the oversize notice and keeps the loop running. -/
theorem event_max_length_rejection_witness :
    convert_to_msg ⟨100, some (NostrMessage.EventMsg sampleCmd)⟩ (some 50) =
      Except.error (Error.EventMaxLengthError 100) ∧
    (step sampleSettings sampleState 5 (LoopEvent.wsNext (WsNext.msg
        (WsMessage.text ⟨100, some (NostrMessage.EventMsg sampleCmd)⟩)))).effects =
      [Effect.send (OutFrame.notice "event exceeded max size")] ∧
    (step sampleSettings sampleState 5 (LoopEvent.wsNext (WsNext.msg
        (WsMessage.text ⟨100, some (NostrMessage.EventMsg sampleCmd)⟩)))).halt = none := by
  have h := event_max_length_rejection ⟨100, some (NostrMessage.EventMsg sampleCmd)⟩ (some 50)
  have hc : convert_to_msg ⟨100, some (NostrMessage.EventMsg sampleCmd)⟩ (some 50) =
      Except.error (Error.EventMaxLengthError 100) :=
    (h.1 100).mpr ⟨rfl, ⟨sampleCmd, rfl⟩, 50, rfl, by decide, by decide⟩
  have he := h.2 sampleSettings sampleState 5 rfl hc
  exact ⟨hc, he.1, he.2⟩

/-- C5: an over-capacity frame reported by the transport produces exactly
the notice "message too large (size > max)" with the two numbers filled
in, and the loop continues. -/
theorem capacity_error_notice (settings : Settings) (st : ConnState)
    (now size max_size : Nat) :
    (step settings st now (LoopEvent.wsNext (WsNext.capacityErr size max_size))).effects =
      [Effect.send (OutFrame.notice
        ("message too large (" ++ toString size ++ " > " ++ toString max_size ++ ")"))] ∧
    (step settings st now (LoopEvent.wsNext (WsNext.capacityErr size max_size))).halt = none :=
  ⟨rfl, rfl⟩

/-- The nostr-message dispatch never touches the last-activity clock. -/
lemma handle_nostr_msg_last_message_time (settings : Settings) (st : ConnState)
    (now : Nat) (em : Except Error NostrMessage) :
    (handle_nostr_msg settings st now em).state.last_message_time = st.last_message_time := by
  unfold handle_nostr_msg
  repeat' split
  all_goals rfl

/-- C6: on a ping tick the engine first tests whether the client has been
silent longer than 20 minutes and if so breaks with reason timeout
(incrementing only that disconnect counter); otherwise it sends a Ping
frame and continues; and any inbound websocket read, pong frames
included, resets the last-activity clock to the current time. -/
theorem ping_timer_and_activity (settings : Settings) (st : ConnState) (now : Nat) :
    (now - st.last_message_time > max_quiet_time →
      (step settings st now LoopEvent.pingTick).halt = some ExitReason.timeout ∧
      (step settings st now LoopEvent.pingTick).effects =
        [Effect.inc (MetricName.disconnects "timeout")]) ∧
    (¬ now - st.last_message_time > max_quiet_time →
      (step settings st now LoopEvent.pingTick).effects = [Effect.send OutFrame.ping] ∧
      (step settings st now LoopEvent.pingTick).halt = none) ∧
    (∀ w, (step settings st now (LoopEvent.wsNext w)).state.last_message_time = now) := by
  refine ⟨?_, ?_, ?_⟩
  · intro h
    constructor <;> simp [step, h]
  · intro h
    constructor <;> simp [step, h]
  · intro w
    cases w with
    | msg m =>
        cases m with
        | text mt =>
            simp only [step]
            rw [handle_nostr_msg_last_message_time]
        | binary => rfl
        | pingMsg => rfl
        | pong => rfl
        | closeFrame => rfl
    | capacityErr size max_size => rfl
    | alreadyClosed => rfl
    | connectionClosed => rfl
    | resetNoClose => rfl
    | ioErr => rfl
    | otherErr => rfl
    | streamEnd => rfl

/-- Closed instance of the C6 theorem: at clock 1300 against a last
activity of 0 the tick disconnects with reason timeout; at clock 100 it
pings instead; and a pong frame at clock 100 moves the activity clock to
100. -/
theorem ping_timer_and_activity_witness :
    ((step sampleSettings sampleState 1300 LoopEvent.pingTick).halt =
        some ExitReason.timeout ∧
      (step sampleSettings sampleState 1300 LoopEvent.pingTick).effects =
        [Effect.inc (MetricName.disconnects "timeout")]) ∧
    ((step sampleSettings sampleState 100 LoopEvent.pingTick).effects =
        [Effect.send OutFrame.ping] ∧
      (step sampleSettings sampleState 100 LoopEvent.pingTick).halt = none) ∧
    (step sampleSettings sampleState 100
        (LoopEvent.wsNext (WsNext.msg WsMessage.pong))).state.last_message_time = 100 :=
  ⟨(ping_timer_and_activity sampleSettings sampleState 1300).1 (by decide),
   (ping_timer_and_activity sampleSettings sampleState 100).2.1 (by decide),
   (ping_timer_and_activity sampleSettings sampleState 100).2.2
     (WsNext.msg WsMessage.pong)⟩

/-- Parsing a REQ frame never trips the codec length check. -/
lemma convert_to_msg_sub (len : Nat) (s : Subscription) (mb : Option Nat) :
    convert_to_msg ⟨len, some (NostrMessage.SubMsg s)⟩ mb =
      Except.ok (NostrMessage.SubMsg s) := by
  simp [convert_to_msg]

/-- C1: a REQ whose subscription id is already registered on the
connection is ignored: the subscription table keeps its old binding, the
running-queries table is untouched, and no historical query is started. -/
theorem duplicate_req_not_replaced (settings : Settings) (st : ConnState)
    (now len : Nat) (s : Subscription)
    (h : st.conn.has_subscription s = true) :
    (step settings st now (LoopEvent.wsNext (WsNext.msg (WsMessage.text
        ⟨len, some (NostrMessage.SubMsg s)⟩)))).state.conn.subscriptions =
      st.conn.subscriptions ∧
    (step settings st now (LoopEvent.wsNext (WsNext.msg (WsMessage.text
        ⟨len, some (NostrMessage.SubMsg s)⟩)))).state.running_queries =
      st.running_queries ∧
    (∀ sub qid, Effect.startQuery sub qid ∉
      (step settings st now (LoopEvent.wsNext (WsNext.msg (WsMessage.text
        ⟨len, some (NostrMessage.SubMsg s)⟩)))).effects) := by
  have hconn : ({ st with last_message_time := now } : ConnState).conn = st.conn := rfl
  refine ⟨?_, ?_, ?_⟩ <;>
    simp [step, convert_to_msg_sub, handle_nostr_msg, hconn, h]

/-- Closed instance of the C1 theorem: re-sending a REQ for the already
registered id "a" leaves both tables as they were and starts nothing. -/
theorem duplicate_req_not_replaced_witness :
    (step sampleSettings sampleState 4 (LoopEvent.wsNext (WsNext.msg (WsMessage.text
        ⟨20, some (NostrMessage.SubMsg { sampleSub with id := "a" })⟩)))).state.conn.subscriptions =
      sampleState.conn.subscriptions ∧
    (step sampleSettings sampleState 4 (LoopEvent.wsNext (WsNext.msg (WsMessage.text
        ⟨20, some (NostrMessage.SubMsg { sampleSub with id := "a" })⟩)))).state.running_queries =
      sampleState.running_queries ∧
    Effect.startQuery { sampleSub with id := "a" } 8 ∉
      (step sampleSettings sampleState 4 (LoopEvent.wsNext (WsNext.msg (WsMessage.text
        ⟨20, some (NostrMessage.SubMsg { sampleSub with id := "a" })⟩)))).effects :=
  have h := duplicate_req_not_replaced sampleSettings sampleState 4 20
    { sampleSub with id := "a" } (by rfl)
  ⟨h.1, h.2.1, h.2.2 { sampleSub with id := "a" } 8⟩

/-- C9: a REQ whose subscription id is already registered produces no
observable action at all: the effect list is empty (no rate-limiter wait,
no counter increment, no outbound frame, no query), the client state and
both tables are untouched, and the loop does not break. -/
theorem duplicate_req_silent (settings : Settings) (st : ConnState)
    (now len : Nat) (s : Subscription)
    (h : st.conn.has_subscription s = true) :
    (step settings st now (LoopEvent.wsNext (WsNext.msg (WsMessage.text
        ⟨len, some (NostrMessage.SubMsg s)⟩)))).effects = [] ∧
    (step settings st now (LoopEvent.wsNext (WsNext.msg (WsMessage.text
        ⟨len, some (NostrMessage.SubMsg s)⟩)))).state.conn = st.conn ∧
    (step settings st now (LoopEvent.wsNext (WsNext.msg (WsMessage.text
        ⟨len, some (NostrMessage.SubMsg s)⟩)))).state.running_queries =
      st.running_queries ∧
    (step settings st now (LoopEvent.wsNext (WsNext.msg (WsMessage.text
        ⟨len, some (NostrMessage.SubMsg s)⟩)))).state.next_qid = st.next_qid ∧
    (step settings st now (LoopEvent.wsNext (WsNext.msg (WsMessage.text
        ⟨len, some (NostrMessage.SubMsg s)⟩)))).halt = none := by
  have hconn : ({ st with last_message_time := now } : ConnState).conn = st.conn := rfl
  refine ⟨?_, ?_, ?_, ?_, ?_⟩ <;>
    simp [step, convert_to_msg_sub, handle_nostr_msg, hconn, h]

/-- Closed instance of the C9 theorem at the registered id "a". -/
theorem duplicate_req_silent_witness :
    (step sampleSettings sampleState 4 (LoopEvent.wsNext (WsNext.msg (WsMessage.text
        ⟨20, some (NostrMessage.SubMsg { sampleSub with id := "a" })⟩)))).effects = [] ∧
    (step sampleSettings sampleState 4 (LoopEvent.wsNext (WsNext.msg (WsMessage.text
        ⟨20, some (NostrMessage.SubMsg { sampleSub with id := "a" })⟩)))).state.conn =
      sampleState.conn ∧
    (step sampleSettings sampleState 4 (LoopEvent.wsNext (WsNext.msg (WsMessage.text
        ⟨20, some (NostrMessage.SubMsg { sampleSub with id := "a" })⟩)))).state.running_queries =
      sampleState.running_queries ∧
    (step sampleSettings sampleState 4 (LoopEvent.wsNext (WsNext.msg (WsMessage.text
        ⟨20, some (NostrMessage.SubMsg { sampleSub with id := "a" })⟩)))).state.next_qid =
      sampleState.next_qid ∧
    (step sampleSettings sampleState 4 (LoopEvent.wsNext (WsNext.msg (WsMessage.text
        ⟨20, some (NostrMessage.SubMsg { sampleSub with id := "a" })⟩)))).halt = none :=
  duplicate_req_silent sampleSettings sampleState 4 20
    { sampleSub with id := "a" } (by rfl)

/-- C2: an EVENT that passes the codec and validates, but whose
timestamp check against `reject_future_seconds` fails, makes the engine
send the client an OK-false notice naming the acceptable window, and the
event is never enqueued on the writer pipeline; the loop continues. -/
theorem future_event_notice_no_enqueue (settings : Settings) (st : ConnState)
    (now len : Nat) (ec : EventCmd) (e : Event)
    (hok : convert_to_msg ⟨len, some (NostrMessage.EventMsg ec)⟩ settings.max_event_bytes =
      Except.ok (NostrMessage.EventMsg ec))
    (hv : ec.validated = Except.ok e)
    (ht : e.is_valid_timestamp now settings.reject_future_seconds = false) :
    ∃ fut_sec, settings.reject_future_seconds = some fut_sec ∧
      (step settings st now (LoopEvent.wsNext (WsNext.msg (WsMessage.text
          ⟨len, some (NostrMessage.EventMsg ec)⟩)))).effects =
        [Effect.inc MetricName.cmd_event,
          Effect.send (OutFrame.okResult e.id false
            ("The event created_at field is out of the acceptable range (+"
              ++ toString fut_sec ++ "sec) for this relay."))] ∧
      (∀ ev ip, Effect.enqueueEvent ev ip ∉
        (step settings st now (LoopEvent.wsNext (WsNext.msg (WsMessage.text
          ⟨len, some (NostrMessage.EventMsg ec)⟩)))).effects) ∧
      (step settings st now (LoopEvent.wsNext (WsNext.msg (WsMessage.text
          ⟨len, some (NostrMessage.EventMsg ec)⟩)))).halt = none := by
  cases hrfs : settings.reject_future_seconds with
  | none =>
      rw [hrfs] at ht
      simp [Event.is_valid_timestamp] at ht
  | some fut_sec =>
      refine ⟨fut_sec, rfl, ?_, ?_, ?_⟩ <;>
        · simp only [step]
          rw [hok]
          rw [hrfs] at ht
          simp [handle_nostr_msg, hv, hrfs, ht, make_notice_message, Notice.invalid]

/-- A concrete event dated far in the future of the witness clock. -/
def futureEvent : Event :=
  { id := "fut1", kind := 1, created_at := 100000, serialized := "future-event" }

/-- A concrete raw EVENT command that validates to `futureEvent`. -/
def futureCmd : EventCmd :=
  { evid := "fut1", validated := Except.ok futureEvent }

/-- Closed instance of the C2 theorem: at clock 100 with a 30-second
window, an event dated 100000 draws the range notice and is not
enqueued. -/
theorem future_event_notice_no_enqueue_witness :
    sampleSettings.reject_future_seconds = some 30 ∧
    (step sampleSettings sampleState 100 (LoopEvent.wsNext (WsNext.msg (WsMessage.text
        ⟨10, some (NostrMessage.EventMsg futureCmd)⟩)))).effects =
      [Effect.inc MetricName.cmd_event,
        Effect.send (OutFrame.okResult futureEvent.id false
          ("The event created_at field is out of the acceptable range (+"
            ++ toString (30 : Nat) ++ "sec) for this relay."))] ∧
    Effect.enqueueEvent futureEvent "127.0.0.1" ∉
      (step sampleSettings sampleState 100 (LoopEvent.wsNext (WsNext.msg (WsMessage.text
        ⟨10, some (NostrMessage.EventMsg futureCmd)⟩)))).effects ∧
    (step sampleSettings sampleState 100 (LoopEvent.wsNext (WsNext.msg (WsMessage.text
        ⟨10, some (NostrMessage.EventMsg futureCmd)⟩)))).halt = none := by
  obtain ⟨fut, hfut, heff, hne, hhalt⟩ :=
    future_event_notice_no_enqueue sampleSettings sampleState 100 10 futureCmd futureEvent
      (by rfl) (by rfl) (by decide)
  have h30 : fut = 30 := by
    have h2 : (some 30 : Option Nat) = some fut := hfut
    exact (Option.some.injEq _ _ ▸ h2).symm
  subst h30
  exact ⟨hfut, heff, hne futureEvent "127.0.0.1", hhalt⟩

/-- Parsing a CLOSE frame never trips the codec length check. -/
lemma convert_to_msg_close (len : Nat) (cc : CloseCmd) (mb : Option Nat) :
    convert_to_msg ⟨len, some (NostrMessage.CloseMsg cc)⟩ mb =
      Except.ok (NostrMessage.CloseMsg cc) := by
  simp [convert_to_msg]

/-- C3: a CLOSE that parses fires the cancel signal found in the
running-queries table for its id (when one is there), removes that entry,
and removes the subscription from the client's table; a CLOSE that fails
to parse draws the notice "could not parse command" and leaves the
subscription table, the running-queries table and the counters as they
were.  Neither case breaks the loop. -/
theorem close_fires_cancel_and_unsubscribes (settings : Settings) (st : ConnState)
    (now len : Nat) (cc : CloseCmd) :
    (∀ c, cc.parsed = some c →
      (step settings st now (LoopEvent.wsNext (WsNext.msg (WsMessage.text
          ⟨len, some (NostrMessage.CloseMsg cc)⟩)))).state.conn =
        st.conn.unsubscribe c ∧
      (step settings st now (LoopEvent.wsNext (WsNext.msg (WsMessage.text
          ⟨len, some (NostrMessage.CloseMsg cc)⟩)))).state.running_queries =
        removeA st.running_queries c.id ∧
      (∀ qid, lookupA st.running_queries c.id = some qid →
        Effect.fireCancel qid ∈
          (step settings st now (LoopEvent.wsNext (WsNext.msg (WsMessage.text
            ⟨len, some (NostrMessage.CloseMsg cc)⟩)))).effects) ∧
      (lookupA st.running_queries c.id = none →
        ∀ q, Effect.fireCancel q ∉
          (step settings st now (LoopEvent.wsNext (WsNext.msg (WsMessage.text
            ⟨len, some (NostrMessage.CloseMsg cc)⟩)))).effects) ∧
      (step settings st now (LoopEvent.wsNext (WsNext.msg (WsMessage.text
          ⟨len, some (NostrMessage.CloseMsg cc)⟩)))).halt = none) ∧
    (cc.parsed = none →
      (step settings st now (LoopEvent.wsNext (WsNext.msg (WsMessage.text
          ⟨len, some (NostrMessage.CloseMsg cc)⟩)))).effects =
        [Effect.send (OutFrame.notice "could not parse command")] ∧
      (step settings st now (LoopEvent.wsNext (WsNext.msg (WsMessage.text
          ⟨len, some (NostrMessage.CloseMsg cc)⟩)))).state.conn = st.conn ∧
      (step settings st now (LoopEvent.wsNext (WsNext.msg (WsMessage.text
          ⟨len, some (NostrMessage.CloseMsg cc)⟩)))).state.running_queries =
        st.running_queries ∧
      (step settings st now (LoopEvent.wsNext (WsNext.msg (WsMessage.text
          ⟨len, some (NostrMessage.CloseMsg cc)⟩)))).halt = none) := by
  have hconn : ({ st with last_message_time := now } : ConnState).conn = st.conn := rfl
  constructor
  · intro c hc
    refine ⟨?_, ?_, ?_, ?_, ?_⟩
    · simp [step, convert_to_msg_close, handle_nostr_msg, hc, hconn]
    · simp [step, convert_to_msg_close, handle_nostr_msg, hc, hconn]
    · intro qid hq
      simp [step, convert_to_msg_close, handle_nostr_msg, hc, hconn, hq]
    · intro hq q
      simp [step, convert_to_msg_close, handle_nostr_msg, hc, hconn, hq]
    · simp [step, convert_to_msg_close, handle_nostr_msg, hc, hconn]
  · intro hc
    refine ⟨?_, ?_, ?_, ?_⟩ <;>
      simp [step, convert_to_msg_close, handle_nostr_msg, hc, hconn,
        make_notice_message, Notice.message]

/-- Closed instance of the C3 theorem: closing the id "a" (whose query 7
is running) fires cancel 7, empties both tables, and keeps the loop; an
unparsable CLOSE draws the parse notice and changes nothing. -/
theorem close_fires_cancel_and_unsubscribes_witness :
    ((step sampleSettings sampleState 4 (LoopEvent.wsNext (WsNext.msg (WsMessage.text
        ⟨20, some (NostrMessage.CloseMsg ⟨some ⟨"a"⟩⟩)⟩)))).state.conn =
      sampleState.conn.unsubscribe ⟨"a"⟩ ∧
    Effect.fireCancel 7 ∈
      (step sampleSettings sampleState 4 (LoopEvent.wsNext (WsNext.msg (WsMessage.text
        ⟨20, some (NostrMessage.CloseMsg ⟨some ⟨"a"⟩⟩)⟩)))).effects) ∧
    ((step sampleSettings sampleState 4 (LoopEvent.wsNext (WsNext.msg (WsMessage.text
        ⟨20, some (NostrMessage.CloseMsg ⟨none⟩)⟩)))).effects =
      [Effect.send (OutFrame.notice "could not parse command")] ∧
    (step sampleSettings sampleState 4 (LoopEvent.wsNext (WsNext.msg (WsMessage.text
        ⟨20, some (NostrMessage.CloseMsg ⟨none⟩)⟩)))).state.running_queries =
      sampleState.running_queries) := by
  have h1 := (close_fires_cancel_and_unsubscribes sampleSettings sampleState 4 20
    ⟨some ⟨"a"⟩⟩).1 ⟨"a"⟩ rfl
  have h2 := (close_fires_cancel_and_unsubscribes sampleSettings sampleState 4 20
    ⟨none⟩).2 rfl
  exact ⟨⟨h1.1, h1.2.2.1 7 (by rfl)⟩, h2.1, h2.2.2.1⟩

/-- Every EVENT frame emitted by the broadcast arm carries the escaped key
of a registered, interested subscription and the event's serialization. -/
lemma broadcastEffects_eventFrame_mem {l : List (String × Subscription)} {e : Event}
    {sid p : String}
    (h : Effect.send (OutFrame.eventFrame sid p) ∈ broadcastEffects l e) :
    ∃ k sub, (k, sub) ∈ l ∧ sub.interested_in_event e = true ∧
      sid = subEsc k ∧ p = e.serialized := by
  induction l with
  | nil => simp [broadcastEffects] at h
  | cons hd tl ih =>
      obtain ⟨k, sub⟩ := hd
      simp only [broadcastEffects] at h
      by_cases hi : sub.interested_in_event e
      · rw [if_pos hi] at h
        simp only [List.mem_cons] at h
        rcases h with h | h | h
        · simp at h
        · simp only [Effect.send.injEq, OutFrame.eventFrame.injEq] at h
          exact ⟨k, sub, List.mem_cons_self _ _, hi, h.1, h.2⟩
        · obtain ⟨k2, sub2, hmem, hint, hsid, hp⟩ := ih h
          exact ⟨k2, sub2, List.mem_cons_of_mem _ hmem, hint, hsid, hp⟩
      · rw [if_neg hi] at h
        obtain ⟨k2, sub2, hmem, hint, hsid, hp⟩ := ih h
        exact ⟨k2, sub2, List.mem_cons_of_mem _ hmem, hint, hsid, hp⟩

/-- C8: every EOSE or EVENT frame the engine emits echoes a sub id with
its embedded double quotes removed: the query-result arm escapes the
result's sub id with `subEsc` on both the EOSE and the EVENT shape, and
the broadcast arm escapes the registered key of the matching
subscription. -/
theorem subid_quotes_stripped (settings : Settings) (st : ConnState) (now : Nat)
    (qr : QueryResult) (e : Event) :
    (∀ sid, Effect.send (OutFrame.eose sid) ∈
        (step settings st now (LoopEvent.queryResult qr)).effects →
      sid = subEsc qr.sub_id) ∧
    (∀ sid p, Effect.send (OutFrame.eventFrame sid p) ∈
        (step settings st now (LoopEvent.queryResult qr)).effects →
      sid = subEsc qr.sub_id ∧ p = qr.event) ∧
    (∀ sid p, Effect.send (OutFrame.eventFrame sid p) ∈
        (step settings st now (LoopEvent.broadcastEvent e)).effects →
      ∃ k sub, (k, sub) ∈ st.conn.subscriptions ∧
        sub.interested_in_event e = true ∧ sid = subEsc k) := by
  refine ⟨?_, ?_, ?_⟩
  · intro sid h
    simp only [step] at h
    by_cases he : qr.event = "EOSE"
    · rw [if_pos he] at h
      simp only [List.mem_singleton, Effect.send.injEq, OutFrame.eose.injEq] at h
      exact h
    · rw [if_neg he] at h
      simp at h
  · intro sid p h
    simp only [step] at h
    by_cases he : qr.event = "EOSE"
    · rw [if_pos he] at h
      simp at h
    · rw [if_neg he] at h
      simp only [List.mem_cons, List.not_mem_nil, or_false, Effect.send.injEq,
        OutFrame.eventFrame.injEq, reduceCtorEq, false_or] at h
      exact h
  · intro sid p h
    simp only [step] at h
    obtain ⟨k, sub, hmem, hint, hsid, -⟩ := broadcastEffects_eventFrame_mem h
    exact ⟨k, sub, hmem, hint, hsid⟩

/-- Closed instance of the C8 theorem: the query-result id containing a
double quote is echoed with the quote removed, and a broadcast event
matching the registered id "a" goes out under an escaped registered
key. -/
theorem subid_quotes_stripped_witness :
    "subid" = subEsc "sub\"id" ∧ "plain" = subEsc "plain" := by
  constructor
  · refine (subid_quotes_stripped sampleSettings sampleState 4
      ⟨"sub\"id", "EOSE"⟩ sampleEvent).1 "subid" ?_
    simp [step, subEsc]
  · refine (subid_quotes_stripped sampleSettings sampleState 4
      ⟨"plain", "EOSE"⟩ sampleEvent).1 "plain" ?_
    simp [step, subEsc]

@[simp]
lemma dl_nil : disconnectLabels [] = [] := rfl

@[simp]
lemma dl_cons_send (f : OutFrame) (l : List Effect) :
    disconnectLabels (Effect.send f :: l) = disconnectLabels l := rfl

@[simp]
lemma dl_cons_await (l : List Effect) :
    disconnectLabels (Effect.awaitRateLimiter :: l) = disconnectLabels l := rfl

@[simp]
lemma dl_cons_enqueue (e : Event) (ip : String) (l : List Effect) :
    disconnectLabels (Effect.enqueueEvent e ip :: l) = disconnectLabels l := rfl

@[simp]
lemma dl_cons_start (s : Subscription) (q : Nat) (l : List Effect) :
    disconnectLabels (Effect.startQuery s q :: l) = disconnectLabels l := rfl

@[simp]
lemma dl_cons_fire (q : Nat) (l : List Effect) :
    disconnectLabels (Effect.fireCancel q :: l) = disconnectLabels l := rfl

@[simp]
lemma dl_cons_log (a b c : Nat) (l : List Effect) :
    disconnectLabels (Effect.logSummary a b c :: l) = disconnectLabels l := rfl

@[simp]
lemma dl_cons_inc_req (l : List Effect) :
    disconnectLabels (Effect.inc MetricName.cmd_req :: l) = disconnectLabels l := rfl

@[simp]
lemma dl_cons_inc_event (l : List Effect) :
    disconnectLabels (Effect.inc MetricName.cmd_event :: l) = disconnectLabels l := rfl

@[simp]
lemma dl_cons_inc_close (l : List Effect) :
    disconnectLabels (Effect.inc MetricName.cmd_close :: l) = disconnectLabels l := rfl

@[simp]
lemma dl_cons_inc_conn (l : List Effect) :
    disconnectLabels (Effect.inc MetricName.connections :: l) = disconnectLabels l := rfl

@[simp]
lemma dl_cons_inc_sent (s : String) (l : List Effect) :
    disconnectLabels (Effect.inc (MetricName.sent_events s) :: l) = disconnectLabels l := rfl

@[simp]
lemma dl_cons_inc_disc (r : String) (l : List Effect) :
    disconnectLabels (Effect.inc (MetricName.disconnects r) :: l) =
      r :: disconnectLabels l := rfl

@[simp]
lemma dl_append (a b : List Effect) :
    disconnectLabels (a ++ b) = disconnectLabels a ++ disconnectLabels b :=
  List.filterMap_append a b _

/-- The broadcast arm never touches a disconnect counter. -/
lemma dl_broadcast (l : List (String × Subscription)) (e : Event) :
    disconnectLabels (broadcastEffects l e) = [] := by
  induction l with
  | nil => rfl
  | cons hd tl ih =>
      obtain ⟨k, sub⟩ := hd
      simp only [broadcastEffects]
      by_cases hi : sub.interested_in_event e
      · rw [if_pos hi]
        simp [ih]
      · rw [if_neg hi]
        exact ih

/-- The cleanup effects carry no disconnect increment. -/
lemma dl_cleanup (st : ConnState) (t : Nat) :
    disconnectLabels (cleanup st t) = [] := by
  simp only [cleanup, dl_append, dl_cons_log, dl_nil]
  induction st.running_queries with
  | nil => rfl
  | cons hd tl ih => simpa using ih

/-- The codec never produces the connection-error variant. -/
lemma convert_to_msg_ne_connError (mt : WireText) (mb : Option Nat) :
    convert_to_msg mt mb ≠ Except.error Error.ConnError := by
  obtain ⟨len, p⟩ := mt
  cases p with
  | none => simp [convert_to_msg]
  | some m =>
      cases m with
      | EventMsg ec =>
          cases mb with
          | none => simp [convert_to_msg]
          | some ms =>
              simp only [convert_to_msg]
              split <;> simp
      | SubMsg s => simp [convert_to_msg]
      | CloseMsg cc => simp [convert_to_msg]

/-- The nostr-message dispatch never increments a disconnect counter. -/
lemma dl_handle (settings : Settings) (st : ConnState) (now : Nat)
    (em : Except Error NostrMessage) :
    disconnectLabels (handle_nostr_msg settings st now em).effects = [] := by
  unfold handle_nostr_msg
  repeat' split
  all_goals simp
  all_goals (repeat' split)
  all_goals rfl

/-- The nostr-message dispatch halts only on the (codec-unreachable)
connection-error variant. -/
lemma handle_halt_none (settings : Settings) (st : ConnState) (now : Nat)
    (em : Except Error NostrMessage) (h : em ≠ Except.error Error.ConnError) :
    (handle_nostr_msg settings st now em).halt = none := by
  unfold handle_nostr_msg
  repeat' split
  all_goals first
    | rfl
    | exact absurd rfl h

/-- Every non-breaking pass leaves the disconnect counters alone. -/
lemma step_dl_none (settings : Settings) (st : ConnState) (now : Nat) (ev : LoopEvent) :
    (step settings st now ev).halt = none →
    disconnectLabels (step settings st now ev).effects = [] := by
  intro hh
  cases ev with
  | shutdownSignal => simp [step] at hh
  | pingTick =>
      by_cases hq : now - st.last_message_time > max_quiet_time
      · simp [step, hq] at hh
      · simp [step, hq]
  | noticeMsg n => simp [step]
  | queryResult qr =>
      simp only [step]
      by_cases he : qr.event = "EOSE"
      · rw [if_pos he]
        simp
      · rw [if_neg he]
        simp
  | broadcastEvent e =>
      simp only [step]
      exact dl_broadcast _ _
  | wsNext w =>
      cases w with
      | msg m =>
          cases m with
          | text mt => exact dl_handle _ _ _ _
          | binary => simp [step]
          | pingMsg => simp [step]
          | pong => simp [step]
          | closeFrame => simp [step, closedNormally] at hh
      | capacityErr a b => simp [step]
      | alreadyClosed => simp [step, closedNormally] at hh
      | connectionClosed => simp [step, closedNormally] at hh
      | resetNoClose => simp [step, closedNormally] at hh
      | ioErr => simp [step] at hh
      | otherErr => simp [step] at hh
      | streamEnd => simp [step, closedNormally] at hh

/-- Every breaking pass increments exactly the disconnect counter whose
label names its exit reason. -/
lemma step_dl_some (settings : Settings) (st : ConnState) (now : Nat) (ev : LoopEvent)
    (r : ExitReason) :
    (step settings st now ev).halt = some r →
    disconnectLabels (step settings st now ev).effects = [ExitReason.label r] := by
  intro hh
  cases ev with
  | shutdownSignal =>
      simp only [step, Option.some.injEq] at hh
      subst hh
      rfl
  | pingTick =>
      by_cases hq : now - st.last_message_time > max_quiet_time
      · simp only [step, if_pos hq, Option.some.injEq] at hh
        subst hh
        simp only [step, if_pos hq]
        rfl
      · simp [step, if_neg hq] at hh
  | noticeMsg n => simp [step] at hh
  | queryResult qr =>
      simp only [step] at hh
      by_cases he : qr.event = "EOSE"
      · rw [if_pos he] at hh
        simp at hh
      · rw [if_neg he] at hh
        simp at hh
  | broadcastEvent e => simp [step] at hh
  | wsNext w =>
      cases w with
      | msg m =>
          cases m with
          | text mt =>
              exfalso
              have hne := convert_to_msg_ne_connError mt settings.max_event_bytes
              have h0 := handle_halt_none settings { st with last_message_time := now } now
                (convert_to_msg mt settings.max_event_bytes) hne
              simp only [step] at hh
              rw [h0] at hh
              exact Option.noConfusion hh
          | binary => simp [step] at hh
          | pingMsg => simp [step] at hh
          | pong => simp [step] at hh
          | closeFrame =>
              simp only [step, closedNormally, Option.some.injEq] at hh
              subst hh
              rfl
      | capacityErr a b => simp [step] at hh
      | alreadyClosed =>
          simp only [step, closedNormally, Option.some.injEq] at hh
          subst hh
          rfl
      | connectionClosed =>
          simp only [step, closedNormally, Option.some.injEq] at hh
          subst hh
          rfl
      | resetNoClose =>
          simp only [step, closedNormally, Option.some.injEq] at hh
          subst hh
          rfl
      | ioErr =>
          simp only [step, Option.some.injEq] at hh
          subst hh
          rfl
      | otherErr =>
          simp only [step, Option.some.injEq] at hh
          subst hh
          rfl
      | streamEnd =>
          simp only [step, closedNormally, Option.some.injEq] at hh
          subst hh
          rfl

/-- Over a whole loop run that breaks, the disconnect increments are
exactly one, labelled by the exit reason. -/
lemma runLoop_dl (settings : Settings) (evs : List (Nat × LoopEvent)) :
    ∀ st effs r stf, runLoop settings st evs = (effs, some r, stf) →
      disconnectLabels effs = [ExitReason.label r] := by
  induction evs with
  | nil =>
      intro st effs r stf h
      simp only [runLoop, Prod.mk.injEq] at h
      exact absurd h.2.1 (by simp)
  | cons p rest ih =>
      intro st effs r stf h
      obtain ⟨now, ev⟩ := p
      simp only [runLoop] at h
      split at h
      · rename_i r2 heq
        simp only [Prod.mk.injEq, Option.some.injEq] at h
        obtain ⟨he, hr, -⟩ := h
        subst he
        subst hr
        exact step_dl_some settings st now ev r2 heq
      · rename_i heq
        simp only [Prod.mk.injEq] at h
        obtain ⟨he, hr, -⟩ := h
        subst he
        have h2 : runLoop settings (step settings st now ev).state rest =
            ((runLoop settings (step settings st now ev).state rest).1,
             some r,
             (runLoop settings (step settings st now ev).state rest).2.2) := by
          rw [← hr]
        rw [dl_append, step_dl_none settings st now ev heq,
          ih (step settings st now ev).state _ r _ h2]
        rfl

/-- C7: whenever the event loop exits, whatever the reason, the full
effect trace carries exactly one disconnect increment and its label is
the exit reason; every cancel signal still in the running-queries table
at exit is fired; and a summary with the published/received counts and
the duration is logged. -/
theorem loop_exit_accounting (settings : Settings) (st : ConnState)
    (evs : List (Nat × LoopEvent)) (endTime : Nat)
    (effs : List Effect) (reason : ExitReason) (stf : ConnState)
    (h : runConn settings st evs endTime = (effs, some reason, stf)) :
    disconnectLabels effs = [ExitReason.label reason] ∧
    (∀ p ∈ stf.running_queries, Effect.fireCancel p.2 ∈ effs) ∧
    Effect.logSummary stf.client_published_event_count
      stf.client_received_event_count (endTime - stf.orig_start) ∈ effs := by
  simp only [runConn] at h
  split at h
  · rename_i r2 heq
    simp only [Prod.mk.injEq, Option.some.injEq] at h
    obtain ⟨he, hr, hs⟩ := h
    rw [hr] at heq
    subst hs
    have hrun : runLoop settings st evs =
        ((runLoop settings st evs).1, some reason, (runLoop settings st evs).2.2) := by
      rw [← heq]
    refine ⟨?_, ?_, ?_⟩
    · rw [← he, dl_append,
        runLoop_dl settings evs st _ reason _ hrun, dl_cleanup]
      rfl
    · intro p hp
      rw [← he]
      refine List.mem_append_right _ ?_
      exact List.mem_append_left _ (List.mem_map_of_mem _ hp)
    · rw [← he]
      refine List.mem_append_right _ ?_
      refine List.mem_append_right _ ?_
      exact List.mem_singleton_self _
  · rename_i heq
    rw [h] at heq
    simp at heq

/-- Closed instance of the C7 theorem: a shutdown signal at clock 3 with
query 7 still running yields the single "shutdown" disconnect increment,
fires cancel 7, and logs the 2-published/3-received summary. -/
theorem loop_exit_accounting_witness :
    disconnectLabels (runConn sampleSettings sampleState [(3, LoopEvent.shutdownSignal)] 9).1 =
      [ExitReason.label ExitReason.shutdown] ∧
    Effect.fireCancel 7 ∈
      (runConn sampleSettings sampleState [(3, LoopEvent.shutdownSignal)] 9).1 ∧
    Effect.logSummary
      (runConn sampleSettings sampleState [(3, LoopEvent.shutdownSignal)] 9).2.2.client_published_event_count
      (runConn sampleSettings sampleState [(3, LoopEvent.shutdownSignal)] 9).2.2.client_received_event_count
      (9 - (runConn sampleSettings sampleState [(3, LoopEvent.shutdownSignal)] 9).2.2.orig_start) ∈
      (runConn sampleSettings sampleState [(3, LoopEvent.shutdownSignal)] 9).1 :=
  have h := loop_exit_accounting sampleSettings sampleState [(3, LoopEvent.shutdownSignal)] 9
    (runConn sampleSettings sampleState [(3, LoopEvent.shutdownSignal)] 9).1
    ExitReason.shutdown
    (runConn sampleSettings sampleState [(3, LoopEvent.shutdownSignal)] 9).2.2
    rfl
  ⟨h.1, h.2.1 ("a", 7) (by decide), h.2.2⟩

end NostrRelay
